import Mathlib

/-!
Verification development for the Payment Reconciliation & Balance Ledger
subsystem of the santa-backend repository.

The relational rows (`Deposit`, `Withdrawal`, `Transaction` from
`db/models.py`) are embedded as Lean structures; monetary amounts are
integers (the code stores Python floats but only ever adds, subtracts and compares them against integer constants, and truncates with `int(...)` when building the transfer payload); timestamps are natural numbers (seconds), with `dayOf`
standing for SQL `func.date` extraction.  Statuses are the literal
strings the Python code compares against.  The MongoDB side (collections
`transactions`, `balances`, `webhook_events`) is embedded as lists of
documents; a balance document carries exactly the fields the code can
ever write, plus optional fields for keys that a reader defaults to 0
(`dict.get(key, 0.0)` semantics).  Python `or`-chains over optional
strings (empty string falsy) are embedded by `pyOrS`, `str(x)` of a
possibly-`None` value by `pyStrOpt`.  External effects (the Flutterwave
HTTP client, HMAC computation, MongoDB availability) enter as explicit
parameters, so every controller is a pure function from its inputs and
the starting stores to a response plus final stores.
-/

namespace Santa

/-- One row of the `deposits` table (`db/models.py`, class `Deposit`). -/
structure Deposit where
  deposit_id : Nat
  user_id : Nat
  amount : Int
  currency : String
  flutterwave_tx_ref : String
  flutterwave_transaction_id : Option String
  status : String
  created_at : Nat
  completed_at : Option Nat
deriving DecidableEq

/-- One row of the `withdrawals` table (`db/models.py`, class `Withdrawal`). -/
structure Withdrawal where
  withdrawal_id : Nat
  user_id : Nat
  amount : Int
  currency : String
  bank_code : String
  account_number : String
  account_name : String
  flutterwave_transfer_id : Option String
  status : String
  created_at : Nat
  completed_at : Option Nat
deriving DecidableEq

/-- One row of the `transactions` ledger table (`db/models.py`, class `Transaction`). -/
structure Transaction where
  user_id : Nat
  transaction_type : String
  amount : Int
  currency : String
  status : String
  description : String
  created_at : Nat
deriving DecidableEq

/-- The relational store: the three ledger tables plus the set of user ids
(the `users` table is only consulted for existence by the admin controller). -/
structure DB where
  users : List Nat
  deposits : List Deposit
  withdrawals : List Withdrawal
  transactions : List Transaction
deriving DecidableEq

/-- A document of the MongoDB `transactions` mirror collection. -/
structure MongoTx where
  user_id : Nat
  deposit_id : Nat
  tx_ref : String
  flutterwave_tx_id : String
  amount : Int
  currency : String
  status : String
  created_at : Nat
  completed_at : Nat
deriving DecidableEq

/-- A document of the MongoDB `balances` collection.  The code only ever
writes `user_id`, `available_balance` and `total_deposits` (via
`update_one` with `$inc` and `$setOnInsert`); `total_withdrawals` and
`pending_withdrawals` are kept as `Option` fields so that a reader's
`doc.get(key, 0.0)` default is represented by `Option.getD 0`. -/
structure BalanceDoc where
  user_id : Nat
  available_balance : Int
  total_deposits : Int
  total_withdrawals : Option Int
  pending_withdrawals : Option Int
deriving DecidableEq

/-- Webhook payload shape: the keys `handle_webhook` reads from the parsed
JSON body (`payload.get("event")` and the fields of `payload.get("data", \x7b\x7d)`). -/
structure WebhookPayload where
  event : Option String
  data_status : Option String
  data_tx_ref : Option String
  data_reference : Option String
  data_flw_ref : Option String
  data_id : Option String
  data_tx_id : Option String
deriving DecidableEq

/-- The MongoDB store: the three collections touched by the payment code. -/
structure Mongo where
  transactions : List MongoTx
  balances : List BalanceDoc
  webhook_events : List WebhookPayload
deriving DecidableEq

/-- An `HTTPException(status_code, detail)`. -/
structure HttpError where
  status_code : Nat
  detail : String
deriving DecidableEq

/-- Python `a or b` on two optional strings: `None` and `""` are falsy. -/
def pyOrS : Option String → Option String → Option String
  | some s, b => if s = "" then b else some s
  | none, b => b

/-- Python truthiness of an optional string. -/
def truthyS : Option String → Bool
  | some s => s ≠ ""
  | none => false

/-- Python `str(x)` for an optional string (`str(None) = "None"`). -/
def pyStrOpt (o : Option String) : String := o.getD "None"

/-- Python `str.lower()`, character by character. -/
def strLower (s : String) : String := ⟨s.data.map Char.toLower⟩

/-- SQL `func.date` on a seconds timestamp: the day index. -/
def dayOf (t : Nat) : Nat := t / 86400

/-- Replace the first list element satisfying `p` (SQLAlchemy `.first()`
row mutation under the unique-key filters used by the controllers). -/
def updateFirst (p : α → Bool) (f : α → α) : List α → List α
  | [] => []
  | x :: xs => if p x then f x :: xs else x :: updateFirst p f xs

/-- `True` exactly on `Except.ok`. -/
def isOkE : Except ε α → Bool
  | .ok _ => true
  | .error _ => false

/-! ## Balance Accounting Engine (`helpers.py`) -/

/-- The five figures returned by `helpers.calculate_user_balance`
(`schemas.BalanceResponse`). -/
structure BalanceResponse where
  available_balance : Int
  total_deposits : Int
  total_withdrawals : Int
  pending_withdrawals : Int
  net_available : Int
deriving DecidableEq

/-- `helpers.calculate_user_balance`: sums over the user's deposits with
status `completed`, withdrawals with status in `completed`/`processing`,
and withdrawals with status `pending`; derives available and net figures. -/
def calculate_user_balance (user_id : Nat) (db : DB) : BalanceResponse :=
  let total_deposits :=
    ((db.deposits.filter (fun d =>
        d.user_id == user_id && d.status == "completed")).map (·.amount)).sum
  let total_withdrawals :=
    ((db.withdrawals.filter (fun w =>
        w.user_id == user_id &&
        (w.status == "completed" || w.status == "processing"))).map (·.amount)).sum
  let pending_withdrawals :=
    ((db.withdrawals.filter (fun w =>
        w.user_id == user_id && w.status == "pending")).map (·.amount)).sum
  let available_balance := total_deposits - total_withdrawals
  { available_balance := available_balance
    total_deposits := total_deposits
    total_withdrawals := total_withdrawals
    pending_withdrawals := pending_withdrawals
    net_available := available_balance - pending_withdrawals }

/-- The outcome of `helpers.validate_withdrawal_eligibility`.  The Python
function returns `(bool, reason_string)`; the reason f-strings are
embedded as constructors carrying the numeric context they interpolate
(`Insufficient balance. Available: $...`, `Minimum withdrawal amount is
$500`, `Daily withdrawal limit exceeded. Remaining: $...`, and `""` for
the eligible case). -/
inductive WReason
  | ok
  | insufficient (available : Int)
  | belowMinimum
  | dailyLimit (remaining : Int)
deriving DecidableEq

/-- Sum of the user's withdrawals created on day `today` whose status is
`pending`, `processing` or `completed` (the daily-limit query of
`validate_withdrawal_eligibility`). -/
def today_withdrawals_sum (user_id : Nat) (db : DB) (today : Nat) : Int :=
  ((db.withdrawals.filter (fun w =>
      w.user_id == user_id &&
      (w.status == "pending" || w.status == "processing" || w.status == "completed") &&
      dayOf w.created_at == today)).map (·.amount)).sum

/-- `helpers.validate_withdrawal_eligibility`: checks, in order, the
requested amount against `net_available`, against the fixed minimum 500,
and against the fixed daily ceiling 1000000 over today's withdrawals. -/
def validate_withdrawal_eligibility (user_id : Nat) (requested_amount : Int)
    (db : DB) (today : Nat) : Bool × WReason :=
  let balance_info := calculate_user_balance user_id db
  if balance_info.net_available < requested_amount then
    (false, .insufficient balance_info.net_available)
  else if requested_amount < 500 then
    (false, .belowMinimum)
  else
    let today_withdrawals := today_withdrawals_sum user_id db today
    let daily_limit : Int := 1000000
    if daily_limit < today_withdrawals + requested_amount then
      (false, .dailyLimit (daily_limit - today_withdrawals))
    else
      (true, .ok)

/-! ## Webhook ingestion and deposit reconciliation (`controllers/payments.py`) -/

/-- The status strings `handle_webhook` and `verify_deposit_status`
recognize as a successful charge. -/
def successStatuses : List String :=
  ["successful", "success", "completed", "charge.completed"]

/-- `FlutterwaveService.verify_webhook_signature`: compare the provided
signature with the hex HMAC-SHA256 of the raw body under the shared
secret (`hmac.compare_digest`).  The HMAC primitive itself is the
`hmac`/`hashlib` library, taken as the parameter `hmacHex`. -/
def verify_webhook_signature (hmacHex : String → String → String)
    (secret request_body signature : String) : Bool :=
  signature == hmacHex secret request_body

/-- `status = data.get("status") or payload.get("event")`. -/
def extractStatus (p : WebhookPayload) : Option String :=
  pyOrS p.data_status p.event

/-- `tx_ref = data.get("tx_ref") or data.get("reference") or data.get("flw_ref")`. -/
def extractTxRef (p : WebhookPayload) : Option String :=
  pyOrS (pyOrS p.data_tx_ref p.data_reference) p.data_flw_ref

/-- `flutterwave_tx_id = data.get("id") or data.get("tx_id") or data.get("flw_ref")`. -/
def extractTxId (p : WebhookPayload) : Option String :=
  pyOrS (pyOrS p.data_id p.data_tx_id) p.data_flw_ref

/-- `str(status).lower() in (...)` over the recognized success statuses. -/
def statusIsSuccess (o : Option String) : Bool :=
  successStatuses.contains (strLower (pyStrOpt o))

/-- Best-effort archive of a payload into `mongo_db.webhook_events`
(`insert_one` inside `try/except: pass`); `mongoOk` is whether the
MongoDB operation succeeds. -/
def archiveEvent (mongoOk : Bool) (p : WebhookPayload) (m : Mongo) : Mongo :=
  if mongoOk then { m with webhook_events := m.webhook_events ++ [p] } else m

/-- `mongo_db.balances.update_one(\x7b"user_id": uid\x7d, \x7b"$inc": \x7b"available_balance":
amt, "total_deposits": amt\x7d, "$setOnInsert": \x7b"user_id": uid\x7d\x7d, upsert=True)`:
increment the matched document, or insert a fresh one holding only the
incremented fields and the user id. -/
def balancesInc (uid : Nat) (amt : Int) (bs : List BalanceDoc) : List BalanceDoc :=
  if (bs.find? (fun b => b.user_id == uid)).isSome then
    updateFirst (fun b => b.user_id == uid)
      (fun b => { b with available_balance := b.available_balance + amt,
                         total_deposits := b.total_deposits + amt }) bs
  else
    bs ++ [{ user_id := uid, available_balance := amt, total_deposits := amt,
             total_withdrawals := none, pending_withdrawals := none }]

/-- Best-effort mirror of a completed deposit into MongoDB
(`transactions.insert_one` plus the `balances` upsert, inside
`try/except: pass`). -/
def mirrorDeposit (mongoOk : Bool) (dep : Deposit) (txr txid : String)
    (now : Nat) (m : Mongo) : Mongo :=
  if mongoOk then
    { m with
      transactions := m.transactions ++
        [{ user_id := dep.user_id, deposit_id := dep.deposit_id, tx_ref := txr,
           flutterwave_tx_id := txid, amount := dep.amount, currency := dep.currency,
           status := "completed", created_at := dep.created_at, completed_at := now }]
      balances := balancesInc dep.user_id dep.amount m.balances }
  else m

/-- The webhook handler's acknowledgment `\x7b"success": ..., "message": ...\x7d`. -/
structure WebhookAck where
  success : Bool
  message : String
deriving DecidableEq

/-- `controllers/payments.handle_webhook`: authenticate the raw body
against the signature header; ignore (but archive) non-success events;
extract the transaction reference; look up the matching deposit by
`flutterwave_tx_ref`; if found, mark it completed, append a ledger
`Transaction`, and best-effort mirror into MongoDB; if not found,
archive the event.  `hmacHex` is the HMAC-SHA256 primitive, `signature`
the resolved `verif-hash`/`x-flutterwave-signature` header, `mongoOk`
whether MongoDB operations succeed, `now` the current timestamp. -/
def handle_webhook (hmacHex : String → String → String) (secret : String)
    (signature : Option String) (rawBody : String) (payload : WebhookPayload)
    (mongoOk : Bool) (now : Nat) (db : DB) (mongo : Mongo) :
    Except HttpError WebhookAck × DB × Mongo :=
  match signature with
  | none => (.error ⟨400, "Invalid webhook signature"⟩, db, mongo)
  | some sig =>
    if ¬ verify_webhook_signature hmacHex secret rawBody sig then
      (.error ⟨400, "Invalid webhook signature"⟩, db, mongo)
    else if ¬ statusIsSuccess (extractStatus payload) then
      (.ok ⟨true, "Ignored non-successful webhook event"⟩, db,
        archiveEvent mongoOk payload mongo)
    else if ¬ truthyS (extractTxRef payload) then
      (.error ⟨400, "tx_ref missing in webhook payload"⟩, db, mongo)
    else
      let txr := pyStrOpt (extractTxRef payload)
      let txid := pyStrOpt (extractTxId payload)
      match db.deposits.find? (fun d => d.flutterwave_tx_ref == txr) with
      | some dep =>
        let dep' :=
          { dep with
            status := "completed"
            flutterwave_transaction_id := some txid
            completed_at := some now }
        let deposits' :=
          updateFirst (fun d => d.flutterwave_tx_ref == txr) (fun _ => dep') db.deposits
        let db1 := { db with deposits := deposits' }
        let tx : Transaction :=
          { user_id := dep.user_id, transaction_type := "deposit",
            amount := dep.amount, currency := dep.currency, status := "completed",
            description := "Deposit via Flutterwave (ref: " ++ txr ++ ")",
            created_at := now }
        let db2 := { db1 with transactions := db1.transactions ++ [tx] }
        (.ok ⟨true, "Processed deposit webhook"⟩, db2,
          mirrorDeposit mongoOk dep txr txid now mongo)
      | none =>
        (.ok ⟨true, "No matching deposit found; event stored"⟩, db,
          archiveEvent mongoOk payload mongo)

/-- The fields `verify_deposit_status` reads from the gateway's
verification response (`fw_data.get(...)`). -/
structure FwVerifyData where
  status : Option String
  chargecode : Option String
  tx_ref : Option String
  id : Option String
  tx_id : Option String
deriving DecidableEq

/-- The JSON object returned by `verify_deposit_status` (its three return
shapes share `deposit_id` and `status`; the already-completed shape also
carries amount, currency and reference, the no-identifier shape a message). -/
structure VerifyReply where
  deposit_id : Nat
  status : String
  amount : Option Int
  currency : Option String
  tx_ref : Option String
  message : Option String
deriving DecidableEq

/-- `controllers/payments.verify_deposit_status`: look up the caller's
deposit; return immediately when it is already `completed`; otherwise
verify against the gateway using the stored transaction id or reference,
and on a success status mark the deposit completed, append a ledger
`Transaction` only if none matching user+amount+type+time-window exists,
and best-effort mirror into MongoDB.  `gateway` is the outcome of
`flutterwave_service.verify_transaction` on the chosen identifier. -/
def verify_deposit_status (deposit_id user_id : Nat)
    (gateway : Except String FwVerifyData) (mongoOk : Bool) (now : Nat)
    (db : DB) (mongo : Mongo) : Except HttpError VerifyReply × DB × Mongo :=
  match db.deposits.find? (fun d => d.deposit_id == deposit_id && d.user_id == user_id) with
  | none => (.error ⟨404, "Deposit not found"⟩, db, mongo)
  | some dep =>
    if dep.status == "completed" then
      (.ok ⟨dep.deposit_id, dep.status, some dep.amount, some dep.currency,
            some dep.flutterwave_tx_ref, none⟩, db, mongo)
    else if ¬ truthyS (pyOrS dep.flutterwave_transaction_id (some dep.flutterwave_tx_ref)) then
      (.ok ⟨dep.deposit_id, dep.status, none, none, none,
            some "No external identifier to verify"⟩, db, mongo)
    else
      match gateway with
      | .error e => (.error ⟨500, "Verification failed: " ++ e⟩, db, mongo)
      | .ok fw =>
        if statusIsSuccess (pyOrS (pyOrS fw.status fw.chargecode) fw.tx_ref) then
          let txid := pyStrOpt (pyOrS (pyOrS fw.id fw.tx_id) dep.flutterwave_transaction_id)
          let dep' :=
            { dep with
              status := "completed"
              flutterwave_transaction_id := some txid
              completed_at := some now }
          let deposits' :=
            updateFirst (fun d => d.deposit_id == deposit_id && d.user_id == user_id)
              (fun _ => dep') db.deposits
          let db1 := { db with deposits := deposits' }
          let tx_exists := (db1.transactions.find? (fun t =>
            t.user_id == dep.user_id && t.amount == dep.amount &&
            t.transaction_type == "deposit" &&
            decide (dep.created_at ≤ t.created_at))).isSome
          let db2 :=
            if tx_exists then db1
            else { db1 with transactions := db1.transactions ++
              [{ user_id := dep.user_id, transaction_type := "deposit",
                 amount := dep.amount, currency := dep.currency, status := "completed",
                 description := "Deposit via Flutterwave (ref: " ++ dep.flutterwave_tx_ref ++ ")",
                 created_at := now }] }
          (.ok ⟨dep.deposit_id, "completed", none, none, none, none⟩, db2,
            mirrorDeposit mongoOk dep dep.flutterwave_tx_ref txid now mongo)
        else
          (.ok ⟨dep.deposit_id, dep.status, none, none, none, none⟩, db, mongo)

/-! ## Withdrawal execution and administration
(`payment_service.py`, `controllers/admin.py`) -/

/-- What `execute_withdrawal` inspects of the gateway's `POST /transfers`
reply: the HTTP status code and `response.json().get("data", \x7b\x7d).get("id")`. -/
structure TransferOutcome where
  status_code : Nat
  transfer_id : Option String
deriving DecidableEq

/-- `schemas.WithdrawalResponse` as returned by `execute_withdrawal`. -/
structure WithdrawalResponse where
  withdrawal_id : Nat
  amount : Int
  currency : String
  status : String
  flutterwave_transfer_id : Option String
deriving DecidableEq

/-- Set the status of the withdrawal row with the given id. -/
def setWithdrawalStatus (wid : Nat) (st : String) (db : DB) : DB :=
  let ws := updateFirst (fun w => w.withdrawal_id == wid)
    (fun w => { w with status := st }) db.withdrawals
  { db with withdrawals := ws }

/-- `FlutterwaveService.execute_withdrawal`: drive the gateway transfer
call for an existing withdrawal row.  `missingKeys` models the
configuration guard, `resp` the HTTP outcome (`none` for a network-level
exception).  A non-success status code or a missing transfer id commits
status `failed` and raises; success records the transfer id, commits
status `processing`, and appends one ledger `Transaction`
(type `withdrawal`, status `processing`). -/
def execute_withdrawal (missingKeys : Bool) (w : Withdrawal) (user_id : Nat)
    (resp : Option TransferOutcome) (now : Nat) (db : DB) :
    Except String WithdrawalResponse × DB :=
  if missingKeys then (.error "Missing Flutterwave configuration", db)
  else
    match resp with
    | none => (.error "Error executing withdrawal: request failed", db)
    | some r =>
      if ¬ (r.status_code == 200 || r.status_code == 201) then
        (.error "Error executing withdrawal: Transfer failed",
         setWithdrawalStatus w.withdrawal_id "failed" db)
      else
        match r.transfer_id with
        | none =>
          (.error "Error executing withdrawal: No transfer ID returned from Flutterwave",
           setWithdrawalStatus w.withdrawal_id "failed" db)
        | some tid =>
          let withdrawals' :=
            updateFirst (fun w0 => w0.withdrawal_id == w.withdrawal_id)
              (fun w0 =>
                { w0 with
                  flutterwave_transfer_id := some tid
                  status := "processing" }) db.withdrawals
          let tx : Transaction :=
            { user_id := user_id, transaction_type := "withdrawal", amount := w.amount,
              currency := w.currency, status := "processing",
              description := "Withdrawal to " ++ w.account_number, created_at := now }
          (.ok ⟨w.withdrawal_id, w.amount, w.currency, "processing", some tid⟩,
           { db with withdrawals := withdrawals', transactions := db.transactions ++ [tx] })

/-- `controllers/admin.approve_withdrawal`: look up the withdrawal, fail
unless its status is still `pending`, check the owning user exists, then
invoke `execute_withdrawal`; any execution error marks the withdrawal
`failed` and surfaces a 500. -/
def approve_withdrawal (missingKeys : Bool) (withdrawal_id : Nat)
    (resp : Option TransferOutcome) (now : Nat) (db : DB) :
    Except HttpError WithdrawalResponse × DB :=
  match db.withdrawals.find? (fun w => w.withdrawal_id == withdrawal_id) with
  | none => (.error ⟨404, "Withdrawal not found"⟩, db)
  | some w =>
    if ¬ (w.status == "pending") then (.error ⟨400, "Withdrawal is not pending"⟩, db)
    else if ¬ db.users.contains w.user_id then
      (.error ⟨404, "Associated user not found"⟩, db)
    else
      match execute_withdrawal missingKeys w w.user_id resp now db with
      | (.ok r, db') => (.ok r, db')
      | (.error e, db') => (.error ⟨500, e⟩, setWithdrawalStatus withdrawal_id "failed" db')

/-- The JSON object returned by `reject_withdrawal` on success. -/
structure RejectReply where
  success : Bool
  withdrawal_id : Nat
  status : String
  reason : String
deriving DecidableEq

/-- `controllers/admin.reject_withdrawal`: fail with 404 when the
withdrawal does not exist, with 400 unless its status is `pending`;
otherwise set status `rejected` and acknowledge.  No ledger entry is
ever written. -/
def reject_withdrawal (withdrawal_id : Nat) (reason : String) (db : DB) :
    Except HttpError RejectReply × DB :=
  match db.withdrawals.find? (fun w => w.withdrawal_id == withdrawal_id) with
  | none => (.error ⟨404, "Withdrawal not found"⟩, db)
  | some w =>
    if ¬ (w.status == "pending") then (.error ⟨400, "Withdrawal is not pending"⟩, db)
    else
      (.ok ⟨true, withdrawal_id, "rejected", reason⟩,
       setWithdrawalStatus withdrawal_id "rejected" db)

/-! ## Balance read path (`controllers/users.py`) -/

/-- `controllers/users.get_balance`: when MongoDB is reachable and holds a
balance document for the user, answer from that document, defaulting the
never-written fields to 0; otherwise fall back to the relational
computation `calculate_user_balance`. -/
def get_balance (user_id : Nat) (mongoUp : Bool) (mongo : Mongo) (db : DB) :
    BalanceResponse :=
  if mongoUp then
    match mongo.balances.find? (fun b => b.user_id == user_id) with
    | some b =>
      { available_balance := b.available_balance
        total_deposits := b.total_deposits
        total_withdrawals := b.total_withdrawals.getD 0
        pending_withdrawals := b.pending_withdrawals.getD 0
        net_available := b.available_balance - b.pending_withdrawals.getD 0 }
    | none => calculate_user_balance user_id db
  else calculate_user_balance user_id db

/-- MongoDB states reachable from an empty store through the payment
controllers (webhook ingestion and poll-driven verification) — the only
code paths that write the `balances` collection. -/
inductive CacheReach : Mongo → Prop
  | init : CacheReach ⟨[], [], []⟩
  | viaWebhook (hm : String → String → String) (secret : String)
      (sig : Option String) (body : String) (p : WebhookPayload) (ok : Bool)
      (now : Nat) (db : DB) (m : Mongo) :
      CacheReach m → CacheReach (handle_webhook hm secret sig body p ok now db m).2.2
  | viaVerify (did uid : Nat) (gw : Except String FwVerifyData) (ok : Bool)
      (now : Nat) (db : DB) (m : Mongo) :
      CacheReach m → CacheReach (verify_deposit_status did uid gw ok now db m).2.2

/-! ## Theorems -/

/-- C2: for every user and ledger state, `calculate_user_balance` returns
`total_deposits` = the sum of the user's completed deposits,
`total_withdrawals` = the sum over withdrawals with status completed or
processing, `pending_withdrawals` = the sum over pending withdrawals,
`available_balance = total_deposits - total_withdrawals`, and
`net_available = available_balance - pending_withdrawals`. -/
theorem santa_C2_balance_identities (uid : Nat) (db : DB) :
    (calculate_user_balance uid db).total_deposits
      = ((db.deposits.filter (fun d =>
          decide (d.user_id = uid ∧ d.status = "completed"))).map (·.amount)).sum
    ∧ (calculate_user_balance uid db).total_withdrawals
      = ((db.withdrawals.filter (fun w =>
          decide (w.user_id = uid ∧ (w.status = "completed" ∨ w.status = "processing")))).map (·.amount)).sum
    ∧ (calculate_user_balance uid db).pending_withdrawals
      = ((db.withdrawals.filter (fun w =>
          decide (w.user_id = uid ∧ w.status = "pending"))).map (·.amount)).sum
    ∧ (calculate_user_balance uid db).available_balance
      = (calculate_user_balance uid db).total_deposits
        - (calculate_user_balance uid db).total_withdrawals
    ∧ (calculate_user_balance uid db).net_available
      = (calculate_user_balance uid db).available_balance
        - (calculate_user_balance uid db).pending_withdrawals := by
  refine ⟨?_, ?_, ?_, rfl, rfl⟩
  · have h : (fun d : Deposit => d.user_id == uid && d.status == "completed")
        = (fun d : Deposit => decide (d.user_id = uid ∧ d.status = "completed")) := by
      funext d
      rw [Bool.eq_iff_iff]
      simp [Bool.and_eq_true]
    simp only [calculate_user_balance, h]
  · have h : (fun w : Withdrawal =>
        w.user_id == uid && (w.status == "completed" || w.status == "processing"))
        = (fun w : Withdrawal =>
            decide (w.user_id = uid ∧ (w.status = "completed" ∨ w.status = "processing"))) := by
      funext w
      rw [Bool.eq_iff_iff]
      simp [Bool.and_eq_true, Bool.or_eq_true]
    simp only [calculate_user_balance, h]
  · have h : (fun w : Withdrawal => w.user_id == uid && w.status == "pending")
        = (fun w : Withdrawal => decide (w.user_id = uid ∧ w.status = "pending")) := by
      funext w
      rw [Bool.eq_iff_iff]
      simp [Bool.and_eq_true]
    simp only [calculate_user_balance, h]

/-- C3 counterexample: the claim says any request below 500 yields the
below-minimum reason regardless of balance, but the insufficient-balance
check runs first: a user with no deposits requesting 100 gets the
insufficient-balance reason (quoting net available 0), not the
below-minimum reason. -/
theorem santa_C3_counterexample :
    validate_withdrawal_eligibility 1 100 ⟨[1], [], [], []⟩ 0
      = (false, WReason.insufficient 0)
    ∧ WReason.insufficient 0 ≠ WReason.belowMinimum := by decide

/-- C3 (amended): for every requested amount below 500 that does not
exceed the user's `net_available`, eligibility validation returns
not-eligible with the below-minimum reason. -/
theorem santa_C3_below_minimum (uid : Nat) (amt : Int) (db : DB) (today : Nat)
    (hmin : amt < 500)
    (hbal : amt ≤ (calculate_user_balance uid db).net_available) :
    validate_withdrawal_eligibility uid amt db today = (false, WReason.belowMinimum) := by
  simp only [validate_withdrawal_eligibility]
  rw [if_neg (not_lt.mpr hbal), if_pos hmin]

/-- Witness for C3 (amended) at a concrete input: a user with 1000
completed deposits requesting 100. -/
theorem santa_C3_below_minimum_witness :
    ((100 : Int) < 500)
    ∧ ((100 : Int) ≤ (calculate_user_balance 1
        ⟨[1], [⟨1, 1, 1000, "USD", "R1", none, "completed", 0, some 0⟩], [], []⟩).net_available)
    ∧ validate_withdrawal_eligibility 1 100
        ⟨[1], [⟨1, 1, 1000, "USD", "R1", none, "completed", 0, some 0⟩], [], []⟩ 0
      = (false, WReason.belowMinimum) :=
  ⟨by decide, by decide,
    santa_C3_below_minimum 1 100
      ⟨[1], [⟨1, 1, 1000, "USD", "R1", none, "completed", 0, some 0⟩], [], []⟩ 0
      (by decide) (by decide)⟩

/-- C6 counterexample: the claim's own example fails on the code — a user
who already moved 999,900 today requesting 200 more is rejected by the
500-minimum check (which runs first), so the reason is below-minimum,
not the daily-limit reason quoting remaining 100. -/
theorem santa_C6_counterexample :
    today_withdrawals_sum 1
        ⟨[1], [⟨1, 1, 2000000, "USD", "R1", none, "completed", 0, some 0⟩],
          [⟨1, 1, 999900, "USD", "b", "a", "n", none, "completed", 0, some 0⟩], []⟩ 0
      = 999900
    ∧ (1000000 : Int) < 999900 + 200
    ∧ validate_withdrawal_eligibility 1 200
        ⟨[1], [⟨1, 1, 2000000, "USD", "R1", none, "completed", 0, some 0⟩],
          [⟨1, 1, 999900, "USD", "b", "a", "n", none, "completed", 0, some 0⟩], []⟩ 0
      = (false, WReason.belowMinimum)
    ∧ WReason.belowMinimum ≠ WReason.dailyLimit 100 := by decide

/-- C6 (amended): for every request of at least 500 that does not exceed
`net_available`, if today's withdrawals (statuses pending, processing,
completed) plus the requested amount exceed the 1,000,000 daily ceiling,
validation rejects with the daily-limit reason quoting the remaining
allowance (ceiling minus today's sum). -/
theorem santa_C6_daily_limit (uid : Nat) (amt : Int) (db : DB) (today : Nat)
    (hbal : amt ≤ (calculate_user_balance uid db).net_available)
    (hmin : ¬ amt < 500)
    (hlim : 1000000 < today_withdrawals_sum uid db today + amt) :
    validate_withdrawal_eligibility uid amt db today
      = (false, WReason.dailyLimit (1000000 - today_withdrawals_sum uid db today)) := by
  simp only [validate_withdrawal_eligibility]
  rw [if_neg (not_lt.mpr hbal), if_neg hmin, if_pos hlim]

/-- Witness for C6 (amended) at a concrete input: 999,900 already moved
today, requesting 600 with ample balance yields the daily-limit reason
with remaining 100. -/
theorem santa_C6_daily_limit_witness :
    ((600 : Int) ≤ (calculate_user_balance 1
        ⟨[1], [⟨1, 1, 2000000, "USD", "R1", none, "completed", 0, some 0⟩],
          [⟨1, 1, 999900, "USD", "b", "a", "n", none, "completed", 0, some 0⟩], []⟩).net_available)
    ∧ (¬ (600 : Int) < 500)
    ∧ (1000000 : Int) < today_withdrawals_sum 1
        ⟨[1], [⟨1, 1, 2000000, "USD", "R1", none, "completed", 0, some 0⟩],
          [⟨1, 1, 999900, "USD", "b", "a", "n", none, "completed", 0, some 0⟩], []⟩ 0 + 600
    ∧ validate_withdrawal_eligibility 1 600
        ⟨[1], [⟨1, 1, 2000000, "USD", "R1", none, "completed", 0, some 0⟩],
          [⟨1, 1, 999900, "USD", "b", "a", "n", none, "completed", 0, some 0⟩], []⟩ 0
      = (false, WReason.dailyLimit 100) :=
  ⟨by decide, by decide, by decide,
    (santa_C6_daily_limit 1 600
      ⟨[1], [⟨1, 1, 2000000, "USD", "R1", none, "completed", 0, some 0⟩],
        [⟨1, 1, 999900, "USD", "b", "a", "n", none, "completed", 0, some 0⟩], []⟩ 0
      (by decide) (by decide) (by decide)).trans (by decide)⟩

/-- C5: an inbound webhook whose signature header is missing or differs
from the hex HMAC-SHA256 of the exact raw body under the shared secret
is rejected with a 400, independently of the payload's content, and both
stores are returned unchanged — no Deposit, Withdrawal, Ledger Entry or
Webhook Event is created or mutated.  (The code performs the comparison
with `hmac.compare_digest`; the constant-time aspect of that library
call is outside the functional embedding.) -/
theorem santa_C5_signature_rejection (hm : String → String → String)
    (secret : String) (signature : Option String) (rawBody : String)
    (payload : WebhookPayload) (mongoOk : Bool) (now : Nat) (db : DB) (mongo : Mongo)
    (hbad : signature ≠ some (hm secret rawBody)) :
    handle_webhook hm secret signature rawBody payload mongoOk now db mongo
      = (.error ⟨400, "Invalid webhook signature"⟩, db, mongo) := by
  cases signature with
  | none => rfl
  | some s =>
    have hs : (s == hm secret rawBody) = false := by
      rw [beq_eq_false_iff_ne]
      exact fun h => hbad (by rw [h])
    simp [handle_webhook, verify_webhook_signature, hs]

/-- Witness for C5 at a concrete input: with the HMAC primitive fixed to
return the body and the header carrying a different string, the handler
rejects and leaves the stores untouched. -/
theorem santa_C5_signature_rejection_witness :
    ((some "wrong" : Option String) ≠ some ((fun _ b => b) "sec" "body"))
    ∧ handle_webhook (fun _ b => b) "sec" (some "wrong") "body"
        ⟨some "charge.completed", none, some "DEP_1", none, none, none, none⟩
        true 5 ⟨[7], [⟨1, 7, 100, "USD", "DEP_1", none, "pending", 0, none⟩], [], []⟩
        ⟨[], [], []⟩
      = (.error ⟨400, "Invalid webhook signature"⟩,
         ⟨[7], [⟨1, 7, 100, "USD", "DEP_1", none, "pending", 0, none⟩], [], []⟩,
         ⟨[], [], []⟩) :=
  ⟨by decide,
    santa_C5_signature_rejection (fun _ b => b) "sec" (some "wrong") "body"
      ⟨some "charge.completed", none, some "DEP_1", none, none, none, none⟩
      true 5 ⟨[7], [⟨1, 7, 100, "USD", "DEP_1", none, "pending", 0, none⟩], [], []⟩
      ⟨[], [], []⟩ (by decide)⟩

/-- C7: an authenticated webhook whose status is not a recognized success
indicator, or whose transaction reference matches no deposit, archives
the payload as a Webhook Event (when the MongoDB write succeeds),
returns a success acknowledgment, and leaves all relational rows and the
MongoDB transaction/balance mirrors unchanged — in particular no Deposit
is ever fabricated. -/
theorem santa_C7_soft_ignore_and_no_match (hm : String → String → String)
    (secret rawBody rawBody2 : String) (pA pB : WebhookPayload)
    (mongoOk now : _) (dbA dbB : DB) (mA mB : Mongo)
    (hnsA : statusIsSuccess (extractStatus pA) = false)
    (hssB : statusIsSuccess (extractStatus pB) = true)
    (htxB : truthyS (extractTxRef pB) = true)
    (hnoneB : dbB.deposits.find?
        (fun d => d.flutterwave_tx_ref == pyStrOpt (extractTxRef pB)) = none) :
    handle_webhook hm secret (some (hm secret rawBody)) rawBody pA mongoOk now dbA mA
      = (.ok ⟨true, "Ignored non-successful webhook event"⟩, dbA, archiveEvent mongoOk pA mA)
    ∧ handle_webhook hm secret (some (hm secret rawBody2)) rawBody2 pB mongoOk now dbB mB
      = (.ok ⟨true, "No matching deposit found; event stored"⟩, dbB, archiveEvent mongoOk pB mB)
    ∧ (archiveEvent mongoOk pA mA).transactions = mA.transactions
    ∧ (archiveEvent mongoOk pA mA).balances = mA.balances
    ∧ (mongoOk = true →
        (archiveEvent mongoOk pA mA).webhook_events = mA.webhook_events ++ [pA]) := by
  refine ⟨?_, ?_, ?_, ?_, ?_⟩
  · simp [handle_webhook, verify_webhook_signature, hnsA]
  · simp [handle_webhook, verify_webhook_signature, hssB, htxB, hnoneB]
  · unfold archiveEvent
    split <;> rfl
  · unfold archiveEvent
    split <;> rfl
  · intro h
    subst h
    rfl

/-- Witness for C7 at concrete inputs: a failed-status event, and a
successful-status event whose reference matches no deposit. -/
theorem santa_C7_soft_ignore_and_no_match_witness :
    (statusIsSuccess (extractStatus ⟨some "charge.failed", some "failed", none, none, none, none, none⟩) = false)
    ∧ (statusIsSuccess (extractStatus ⟨none, some "successful", some "UNKNOWN_REF", none, none, some "T1", none⟩) = true)
    ∧ (truthyS (extractTxRef ⟨none, some "successful", some "UNKNOWN_REF", none, none, some "T1", none⟩) = true)
    ∧ ((⟨[7], [⟨1, 7, 100, "USD", "DEP_1", none, "pending", 0, none⟩], [], []⟩ : DB).deposits.find?
        (fun d => d.flutterwave_tx_ref ==
          pyStrOpt (extractTxRef ⟨none, some "successful", some "UNKNOWN_REF", none, none, some "T1", none⟩)) = none)
    ∧ handle_webhook (fun _ b => b) "sec" (some "body") "body"
        ⟨some "charge.failed", some "failed", none, none, none, none, none⟩
        true 5 ⟨[], [], [], []⟩ ⟨[], [], []⟩
      = (.ok ⟨true, "Ignored non-successful webhook event"⟩, ⟨[], [], [], []⟩,
         archiveEvent true ⟨some "charge.failed", some "failed", none, none, none, none, none⟩ ⟨[], [], []⟩)
    ∧ handle_webhook (fun _ b => b) "sec" (some "body2") "body2"
        ⟨none, some "successful", some "UNKNOWN_REF", none, none, some "T1", none⟩
        true 5 ⟨[7], [⟨1, 7, 100, "USD", "DEP_1", none, "pending", 0, none⟩], [], []⟩ ⟨[], [], []⟩
      = (.ok ⟨true, "No matching deposit found; event stored"⟩,
         ⟨[7], [⟨1, 7, 100, "USD", "DEP_1", none, "pending", 0, none⟩], [], []⟩,
         archiveEvent true ⟨none, some "successful", some "UNKNOWN_REF", none, none, some "T1", none⟩ ⟨[], [], []⟩) :=
  ⟨by decide, by decide, by decide, by decide,
    (santa_C7_soft_ignore_and_no_match (fun _ b => b) "sec" "body" "body2"
      ⟨some "charge.failed", some "failed", none, none, none, none, none⟩
      ⟨none, some "successful", some "UNKNOWN_REF", none, none, some "T1", none⟩
      true 5 ⟨[], [], [], []⟩
      ⟨[7], [⟨1, 7, 100, "USD", "DEP_1", none, "pending", 0, none⟩], [], []⟩
      ⟨[], [], []⟩ ⟨[], [], []⟩ (by decide) (by decide) (by decide) (by decide)).1,
    (santa_C7_soft_ignore_and_no_match (fun _ b => b) "sec" "body" "body2"
      ⟨some "charge.failed", some "failed", none, none, none, none, none⟩
      ⟨none, some "successful", some "UNKNOWN_REF", none, none, some "T1", none⟩
      true 5 ⟨[], [], [], []⟩
      ⟨[7], [⟨1, 7, 100, "USD", "DEP_1", none, "pending", 0, none⟩], [], []⟩
      ⟨[], [], []⟩ ⟨[], [], []⟩ (by decide) (by decide) (by decide) (by decide)).2.1⟩

/-- C8: the response and the relational state produced by a
deposit-completion path are identical whether the MongoDB mirror writes
succeed or fail — cache-write failures are fully absorbed and never
surfaced or rolled back, on every path of both `handle_webhook` and
`verify_deposit_status`. -/
theorem santa_C8_cache_failure_isolation (hm : String → String → String)
    (secret : String) (signature : Option String) (rawBody : String)
    (payload : WebhookPayload) (now : Nat) (db : DB) (mongo : Mongo)
    (did uid : Nat) (gw : Except String FwVerifyData) (now2 : Nat)
    (db2 : DB) (mongo2 : Mongo) :
    (handle_webhook hm secret signature rawBody payload true now db mongo).1
      = (handle_webhook hm secret signature rawBody payload false now db mongo).1
    ∧ (handle_webhook hm secret signature rawBody payload true now db mongo).2.1
      = (handle_webhook hm secret signature rawBody payload false now db mongo).2.1
    ∧ (verify_deposit_status did uid gw true now2 db2 mongo2).1
      = (verify_deposit_status did uid gw false now2 db2 mongo2).1
    ∧ (verify_deposit_status did uid gw true now2 db2 mongo2).2.1
      = (verify_deposit_status did uid gw false now2 db2 mongo2).2.1 := by
  refine ⟨?_, ?_, ?_, ?_⟩ <;>
    · simp only [handle_webhook, verify_deposit_status]
      repeat' split
      all_goals rfl

/-- C1 at its failing input: `handle_webhook` applies completion effects
without re-checking the deposit's current status, so delivering the same
successful webhook twice for transaction reference `DEP_1` leaves one
completed Deposit but creates two Ledger Entries and credits the balance
cache twice (200 instead of 100) — contradicting the idempotency rule,
which `verify_deposit_status` (and `batch_verify_apply.apply_updates`)
do implement via an early return on `status == "completed"` and a
`tx_exists` lookup. -/
theorem santa_C1_webhook_not_idempotent :
    isOkE (handle_webhook (fun _ b => b) "sec" (some "body") "body"
        ⟨some "charge.completed", some "successful", some "DEP_1", none, none, some "TX99", none⟩
        true 10 ⟨[7], [⟨1, 7, 100, "USD", "DEP_1", none, "pending", 0, none⟩], [], []⟩
        ⟨[], [], []⟩).1 = true
    ∧ (handle_webhook (fun _ b => b) "sec" (some "body") "body"
        ⟨some "charge.completed", some "successful", some "DEP_1", none, none, some "TX99", none⟩
        true 10 ⟨[7], [⟨1, 7, 100, "USD", "DEP_1", none, "pending", 0, none⟩], [], []⟩
        ⟨[], [], []⟩).2.1.transactions.length = 1
    ∧ (handle_webhook (fun _ b => b) "sec" (some "body") "body"
        ⟨some "charge.completed", some "successful", some "DEP_1", none, none, some "TX99", none⟩
        true 20
        (handle_webhook (fun _ b => b) "sec" (some "body") "body"
          ⟨some "charge.completed", some "successful", some "DEP_1", none, none, some "TX99", none⟩
          true 10 ⟨[7], [⟨1, 7, 100, "USD", "DEP_1", none, "pending", 0, none⟩], [], []⟩
          ⟨[], [], []⟩).2.1
        (handle_webhook (fun _ b => b) "sec" (some "body") "body"
          ⟨some "charge.completed", some "successful", some "DEP_1", none, none, some "TX99", none⟩
          true 10 ⟨[7], [⟨1, 7, 100, "USD", "DEP_1", none, "pending", 0, none⟩], [], []⟩
          ⟨[], [], []⟩).2.2).2.1.transactions.length = 2
    ∧ (handle_webhook (fun _ b => b) "sec" (some "body") "body"
        ⟨some "charge.completed", some "successful", some "DEP_1", none, none, some "TX99", none⟩
        true 20
        (handle_webhook (fun _ b => b) "sec" (some "body") "body"
          ⟨some "charge.completed", some "successful", some "DEP_1", none, none, some "TX99", none⟩
          true 10 ⟨[7], [⟨1, 7, 100, "USD", "DEP_1", none, "pending", 0, none⟩], [], []⟩
          ⟨[], [], []⟩).2.1
        (handle_webhook (fun _ b => b) "sec" (some "body") "body"
          ⟨some "charge.completed", some "successful", some "DEP_1", none, none, some "TX99", none⟩
          true 10 ⟨[7], [⟨1, 7, 100, "USD", "DEP_1", none, "pending", 0, none⟩], [], []⟩
          ⟨[], [], []⟩).2.2).2.2.balances = [⟨7, 200, 200, none, none⟩]
    ∧ ((handle_webhook (fun _ b => b) "sec" (some "body") "body"
        ⟨some "charge.completed", some "successful", some "DEP_1", none, none, some "TX99", none⟩
        true 20
        (handle_webhook (fun _ b => b) "sec" (some "body") "body"
          ⟨some "charge.completed", some "successful", some "DEP_1", none, none, some "TX99", none⟩
          true 10 ⟨[7], [⟨1, 7, 100, "USD", "DEP_1", none, "pending", 0, none⟩], [], []⟩
          ⟨[], [], []⟩).2.1
        (handle_webhook (fun _ b => b) "sec" (some "body") "body"
          ⟨some "charge.completed", some "successful", some "DEP_1", none, none, some "TX99", none⟩
          true 10 ⟨[7], [⟨1, 7, 100, "USD", "DEP_1", none, "pending", 0, none⟩], [], []⟩
          ⟨[], [], []⟩).2.2).2.1.deposits.filter (fun d => d.status == "completed")).length = 1 := by
  decide

/-- C4: for a withdrawal being executed, a gateway reply with a
non-success HTTP status or a missing transfer id sets the withdrawal's
status to `failed` and creates no ledger entry; a success reply records
the transfer id, sets status `processing`, and appends exactly one
ledger entry of type `withdrawal` with status `processing`; and
`approve_withdrawal` refuses (400, state unchanged) whenever the
withdrawal's status is no longer `pending`, so execution is only ever
invoked on a still-pending withdrawal. -/
theorem santa_C4_execute_withdrawal (uid now : Nat)
    (dbF dbS dbG : DB) (wF wS : Withdrawal) (rF rS : TransferOutcome)
    (tid : String) (widG : Nat) (wG : Withdrawal)
    (hF : ¬ (rF.status_code = 200 ∨ rF.status_code = 201) ∨ rF.transfer_id = none)
    (hS : rS.status_code = 200 ∨ rS.status_code = 201)
    (hStid : rS.transfer_id = some tid)
    (hG : dbG.withdrawals.find? (fun w => w.withdrawal_id == widG) = some wG)
    (hGp : wG.status ≠ "pending") :
    ((execute_withdrawal false wF uid (some rF) now dbF).2
        = setWithdrawalStatus wF.withdrawal_id "failed" dbF
      ∧ isOkE (execute_withdrawal false wF uid (some rF) now dbF).1 = false
      ∧ (setWithdrawalStatus wF.withdrawal_id "failed" dbF).transactions = dbF.transactions)
    ∧ execute_withdrawal false wS uid (some rS) now dbS
        = (.ok ⟨wS.withdrawal_id, wS.amount, wS.currency, "processing", some tid⟩,
           { dbS with
             withdrawals := updateFirst (fun w0 => w0.withdrawal_id == wS.withdrawal_id)
               (fun w0 => { w0 with flutterwave_transfer_id := some tid, status := "processing" })
               dbS.withdrawals
             transactions := dbS.transactions ++
               [⟨uid, "withdrawal", wS.amount, wS.currency, "processing",
                 "Withdrawal to " ++ wS.account_number, now⟩] })
    ∧ approve_withdrawal false widG (some rS) now dbG
        = (.error ⟨400, "Withdrawal is not pending"⟩, dbG) := by
  refine ⟨?_, ?_, ?_⟩
  · have h2 : (setWithdrawalStatus wF.withdrawal_id "failed" dbF).transactions
        = dbF.transactions := rfl
    rcases hF with hcode | hid
    · have hcode' : (rF.status_code == 200 || rF.status_code == 201) = false := by
        simp only [Bool.or_eq_false_iff, beq_eq_false_iff_ne]
        exact ⟨fun h => hcode (Or.inl h), fun h => hcode (Or.inr h)⟩
      exact ⟨by simp [execute_withdrawal, hcode'],
        by simp [execute_withdrawal, hcode', isOkE], h2⟩
    · by_cases hcode : (rF.status_code == 200 || rF.status_code == 201) = true
      · exact ⟨by simp [execute_withdrawal, hcode, hid],
          by simp [execute_withdrawal, hcode, hid, isOkE], h2⟩
      · have hcode' : (rF.status_code == 200 || rF.status_code == 201) = false :=
          Bool.eq_false_iff.mpr (fun hc => hcode hc)
        exact ⟨by simp [execute_withdrawal, hcode'],
          by simp [execute_withdrawal, hcode', isOkE], h2⟩
  · have hcode : (rS.status_code == 200 || rS.status_code == 201) = true := by
      rcases hS with h | h <;> simp [h]
    simp [execute_withdrawal, hcode, hStid]
  · have hGp' : (wG.status == "pending") = false := by
      rwa [beq_eq_false_iff_ne]
    simp [approve_withdrawal, hG, hGp']

/-- Witness for C4 at concrete inputs: a 500 reply fails the withdrawal
without a ledger entry; a 200 reply with transfer id `T9` records it and
appends one processing withdrawal entry; approving an already-processing
withdrawal is refused. -/
theorem santa_C4_execute_withdrawal_witness :
    (¬ ((500 : Nat) = 200 ∨ (500 : Nat) = 201) ∨
        (TransferOutcome.mk 500 none).transfer_id = none)
    ∧ ((200 : Nat) = 200 ∨ (200 : Nat) = 201)
    ∧ (TransferOutcome.mk 200 (some "T9")).transfer_id = some "T9"
    ∧ ((⟨[7], [], [⟨3, 7, 1000, "USD", "044", "0690000040", "Ada", none, "processing", 0, none⟩], []⟩ : DB).withdrawals.find?
        (fun w => w.withdrawal_id == 3)
        = some ⟨3, 7, 1000, "USD", "044", "0690000040", "Ada", none, "processing", 0, none⟩)
    ∧ (⟨3, 7, 1000, "USD", "044", "0690000040", "Ada", none, "processing", 0, none⟩ : Withdrawal).status ≠ "pending"
    ∧ ((execute_withdrawal false ⟨2, 7, 1000, "USD", "044", "0690000040", "Ada", none, "pending", 0, none⟩ 7
          (some ⟨500, none⟩) 11
          ⟨[7], [], [⟨2, 7, 1000, "USD", "044", "0690000040", "Ada", none, "pending", 0, none⟩], []⟩).2
        = setWithdrawalStatus 2 "failed"
            ⟨[7], [], [⟨2, 7, 1000, "USD", "044", "0690000040", "Ada", none, "pending", 0, none⟩], []⟩)
    ∧ (execute_withdrawal false ⟨2, 7, 1000, "USD", "044", "0690000040", "Ada", none, "pending", 0, none⟩ 7
          (some ⟨200, some "T9"⟩) 11
          ⟨[7], [], [⟨2, 7, 1000, "USD", "044", "0690000040", "Ada", none, "pending", 0, none⟩], []⟩).2.transactions
        = [⟨7, "withdrawal", 1000, "USD", "processing", "Withdrawal to 0690000040", 11⟩]
    ∧ approve_withdrawal false 3 (some ⟨200, some "T9"⟩) 11
        ⟨[7], [], [⟨3, 7, 1000, "USD", "044", "0690000040", "Ada", none, "processing", 0, none⟩], []⟩
        = (.error ⟨400, "Withdrawal is not pending"⟩,
           ⟨[7], [], [⟨3, 7, 1000, "USD", "044", "0690000040", "Ada", none, "processing", 0, none⟩], []⟩) := by
  refine ⟨by decide, by decide, by decide, by decide, by decide, ?_, ?_, ?_⟩
  · exact (santa_C4_execute_withdrawal 7 11
        ⟨[7], [], [⟨2, 7, 1000, "USD", "044", "0690000040", "Ada", none, "pending", 0, none⟩], []⟩
        ⟨[7], [], [⟨2, 7, 1000, "USD", "044", "0690000040", "Ada", none, "pending", 0, none⟩], []⟩
        ⟨[7], [], [⟨3, 7, 1000, "USD", "044", "0690000040", "Ada", none, "processing", 0, none⟩], []⟩
        ⟨2, 7, 1000, "USD", "044", "0690000040", "Ada", none, "pending", 0, none⟩
        ⟨2, 7, 1000, "USD", "044", "0690000040", "Ada", none, "pending", 0, none⟩
        ⟨500, none⟩ ⟨200, some "T9"⟩ "T9" 3
        ⟨3, 7, 1000, "USD", "044", "0690000040", "Ada", none, "processing", 0, none⟩
        (by decide) (by decide) (by decide) (by decide) (by decide)).1.1
  · have h := (santa_C4_execute_withdrawal 7 11
        ⟨[7], [], [⟨2, 7, 1000, "USD", "044", "0690000040", "Ada", none, "pending", 0, none⟩], []⟩
        ⟨[7], [], [⟨2, 7, 1000, "USD", "044", "0690000040", "Ada", none, "pending", 0, none⟩], []⟩
        ⟨[7], [], [⟨3, 7, 1000, "USD", "044", "0690000040", "Ada", none, "processing", 0, none⟩], []⟩
        ⟨2, 7, 1000, "USD", "044", "0690000040", "Ada", none, "pending", 0, none⟩
        ⟨2, 7, 1000, "USD", "044", "0690000040", "Ada", none, "pending", 0, none⟩
        ⟨500, none⟩ ⟨200, some "T9"⟩ "T9" 3
        ⟨3, 7, 1000, "USD", "044", "0690000040", "Ada", none, "processing", 0, none⟩
        (by decide) (by decide) (by decide) (by decide) (by decide)).2.1
    rw [h]
    decide
  · exact (santa_C4_execute_withdrawal 7 11
        ⟨[7], [], [⟨2, 7, 1000, "USD", "044", "0690000040", "Ada", none, "pending", 0, none⟩], []⟩
        ⟨[7], [], [⟨2, 7, 1000, "USD", "044", "0690000040", "Ada", none, "pending", 0, none⟩], []⟩
        ⟨[7], [], [⟨3, 7, 1000, "USD", "044", "0690000040", "Ada", none, "processing", 0, none⟩], []⟩
        ⟨2, 7, 1000, "USD", "044", "0690000040", "Ada", none, "pending", 0, none⟩
        ⟨2, 7, 1000, "USD", "044", "0690000040", "Ada", none, "pending", 0, none⟩
        ⟨500, none⟩ ⟨200, some "T9"⟩ "T9" 3
        ⟨3, 7, 1000, "USD", "044", "0690000040", "Ada", none, "processing", 0, none⟩
        (by decide) (by decide) (by decide) (by decide) (by decide)).2.2

/-- C9: administrative rejection succeeds exactly when the withdrawal is
still `pending`, in which case it sets status `rejected` and creates no
ledger entry; for a withdrawal in any other status it fails with a 400
and changes nothing. -/
theorem santa_C9_reject_withdrawal (wid wid2 : Nat) (reason reason2 : String)
    (db db2 : DB) (w w2 : Withdrawal)
    (hfind : db.withdrawals.find? (fun x => x.withdrawal_id == wid) = some w)
    (hp : w.status = "pending")
    (hfind2 : db2.withdrawals.find? (fun x => x.withdrawal_id == wid2) = some w2)
    (hnp : w2.status ≠ "pending") :
    (reject_withdrawal wid reason db
        = (.ok ⟨true, wid, "rejected", reason⟩, setWithdrawalStatus wid "rejected" db)
      ∧ (setWithdrawalStatus wid "rejected" db).transactions = db.transactions
      ∧ (setWithdrawalStatus wid "rejected" db).deposits = db.deposits)
    ∧ reject_withdrawal wid2 reason2 db2 = (.error ⟨400, "Withdrawal is not pending"⟩, db2) := by
  refine ⟨⟨?_, rfl, rfl⟩, ?_⟩
  · simp [reject_withdrawal, hfind, hp]
  · have hnp' : (w2.status == "pending") = false := by rwa [beq_eq_false_iff_ne]
    simp [reject_withdrawal, hfind2, hnp']

/-- Witness for C9 at concrete inputs: rejecting a pending withdrawal
succeeds and touches no ledger row; rejecting a completed one is refused. -/
theorem santa_C9_reject_withdrawal_witness :
    ((⟨[7], [], [⟨2, 7, 1000, "USD", "044", "0690000040", "Ada", none, "pending", 0, none⟩], []⟩ : DB).withdrawals.find?
        (fun x => x.withdrawal_id == 2)
        = some ⟨2, 7, 1000, "USD", "044", "0690000040", "Ada", none, "pending", 0, none⟩)
    ∧ ((⟨2, 7, 1000, "USD", "044", "0690000040", "Ada", none, "pending", 0, none⟩ : Withdrawal).status = "pending")
    ∧ ((⟨[7], [], [⟨3, 7, 1000, "USD", "044", "0690000040", "Ada", none, "completed", 0, some 9⟩], []⟩ : DB).withdrawals.find?
        (fun x => x.withdrawal_id == 3)
        = some ⟨3, 7, 1000, "USD", "044", "0690000040", "Ada", none, "completed", 0, some 9⟩)
    ∧ ((⟨3, 7, 1000, "USD", "044", "0690000040", "Ada", none, "completed", 0, some 9⟩ : Withdrawal).status ≠ "pending")
    ∧ reject_withdrawal 2 "fraud check"
        ⟨[7], [], [⟨2, 7, 1000, "USD", "044", "0690000040", "Ada", none, "pending", 0, none⟩], []⟩
      = (.ok ⟨true, 2, "rejected", "fraud check"⟩,
         setWithdrawalStatus 2 "rejected"
           ⟨[7], [], [⟨2, 7, 1000, "USD", "044", "0690000040", "Ada", none, "pending", 0, none⟩], []⟩)
    ∧ reject_withdrawal 3 "late"
        ⟨[7], [], [⟨3, 7, 1000, "USD", "044", "0690000040", "Ada", none, "completed", 0, some 9⟩], []⟩
      = (.error ⟨400, "Withdrawal is not pending"⟩,
         ⟨[7], [], [⟨3, 7, 1000, "USD", "044", "0690000040", "Ada", none, "completed", 0, some 9⟩], []⟩) :=
  ⟨by decide, by decide, by decide, by decide,
    ((santa_C9_reject_withdrawal 2 3 "fraud check" "late"
      ⟨[7], [], [⟨2, 7, 1000, "USD", "044", "0690000040", "Ada", none, "pending", 0, none⟩], []⟩
      ⟨[7], [], [⟨3, 7, 1000, "USD", "044", "0690000040", "Ada", none, "completed", 0, some 9⟩], []⟩
      ⟨2, 7, 1000, "USD", "044", "0690000040", "Ada", none, "pending", 0, none⟩
      ⟨3, 7, 1000, "USD", "044", "0690000040", "Ada", none, "completed", 0, some 9⟩
      (by decide) (by decide) (by decide) (by decide)).1).1,
    (santa_C9_reject_withdrawal 2 3 "fraud check" "late"
      ⟨[7], [], [⟨2, 7, 1000, "USD", "044", "0690000040", "Ada", none, "pending", 0, none⟩], []⟩
      ⟨[7], [], [⟨3, 7, 1000, "USD", "044", "0690000040", "Ada", none, "completed", 0, some 9⟩], []⟩
      ⟨2, 7, 1000, "USD", "044", "0690000040", "Ada", none, "pending", 0, none⟩
      ⟨3, 7, 1000, "USD", "044", "0690000040", "Ada", none, "completed", 0, some 9⟩
      (by decide) (by decide) (by decide) (by decide)).2⟩

/-- An element of `updateFirst p f l` is an element of `l` or the image
under `f` of an element of `l`. -/
theorem mem_updateFirst {α : Type} {p : α → Bool} {f : α → α} {l : List α} {x : α}
    (hx : x ∈ updateFirst p f l) : x ∈ l ∨ ∃ y ∈ l, x = f y := by
  induction l with
  | nil => cases hx
  | cons a as ih =>
    simp only [updateFirst] at hx
    split at hx
    · rcases List.mem_cons.mp hx with h | h
      · exact Or.inr ⟨a, List.mem_cons_self a as, h⟩
      · exact Or.inl (List.mem_cons_of_mem a h)
    · rcases List.mem_cons.mp hx with h | h
      · exact Or.inl (h ▸ List.mem_cons_self a as)
      · rcases ih h with h' | ⟨y, hy, hxy⟩
        · exact Or.inl (List.mem_cons_of_mem a h')
        · exact Or.inr ⟨y, List.mem_cons_of_mem a hy, hxy⟩

/-- The balance upsert touches only `available_balance` and
`total_deposits`: it preserves absence of the `total_withdrawals` and
`pending_withdrawals` keys on every document. -/
theorem balancesInc_fields (uid : Nat) (amt : Int) (bs : List BalanceDoc)
    (hb : ∀ x ∈ bs, x.total_withdrawals = none ∧ x.pending_withdrawals = none) :
    ∀ x ∈ balancesInc uid amt bs,
      x.total_withdrawals = none ∧ x.pending_withdrawals = none := by
  intro x hx
  unfold balancesInc at hx
  split at hx
  · rcases mem_updateFirst hx with h | ⟨y, hy, hxy⟩
    · exact hb x h
    · subst hxy
      exact hb y hy
  · rcases List.mem_append.mp hx with h | h
    · exact hb x h
    · rcases List.mem_singleton.mp h with h'
      subst h'
      exact ⟨rfl, rfl⟩

/-- `handle_webhook` leaves the balance cache unchanged or applies one
`balancesInc` to it. -/
theorem handle_webhook_balances (hm : String → String → String) (secret : String)
    (sig : Option String) (body : String) (p : WebhookPayload) (ok : Bool)
    (now : Nat) (db : DB) (m : Mongo) :
    (handle_webhook hm secret sig body p ok now db m).2.2.balances = m.balances
    ∨ ∃ u amt, (handle_webhook hm secret sig body p ok now db m).2.2.balances
        = balancesInc u amt m.balances := by
  cases sig with
  | none => exact Or.inl rfl
  | some s =>
    simp only [handle_webhook]
    repeat' split
    all_goals first
      | exact Or.inl rfl
      | exact Or.inl (by simp only [archiveEvent]; split <;> rfl)
      | (simp only [mirrorDeposit]
         split
         · exact Or.inr ⟨_, _, rfl⟩
         · exact Or.inl rfl)

/-- `verify_deposit_status` leaves the balance cache unchanged or applies
one `balancesInc` to it. -/
theorem verify_deposit_status_balances (did uid : Nat)
    (gw : Except String FwVerifyData) (ok : Bool) (now : Nat) (db : DB) (m : Mongo) :
    (verify_deposit_status did uid gw ok now db m).2.2.balances = m.balances
    ∨ ∃ u amt, (verify_deposit_status did uid gw ok now db m).2.2.balances
        = balancesInc u amt m.balances := by
  simp only [verify_deposit_status]
  repeat' split
  all_goals first
    | exact Or.inl rfl
    | (simp only [mirrorDeposit]
       split
       · exact Or.inr ⟨_, _, rfl⟩
       · exact Or.inl rfl)

/-- On every MongoDB state reachable through the payment controllers, no
balance document ever carries the `total_withdrawals` or
`pending_withdrawals` keys. -/
theorem cacheReach_balances {m : Mongo} (h : CacheReach m) :
    ∀ x ∈ m.balances, x.total_withdrawals = none ∧ x.pending_withdrawals = none := by
  induction h with
  | init =>
    intro x hx
    cases hx
  | viaWebhook hm secret sig body p ok now db m' hr ih =>
    intro x hx
    rcases handle_webhook_balances hm secret sig body p ok now db m' with he | ⟨u, amt, he⟩
    · rw [he] at hx
      exact ih x hx
    · rw [he] at hx
      exact balancesInc_fields u amt m'.balances ih x hx
  | viaVerify did uid gw ok now db m' hr ih =>
    intro x hx
    rcases verify_deposit_status_balances did uid gw ok now db m' with he | ⟨u, amt, he⟩
    · rw [he] at hx
      exact ih x hx
    · rw [he] at hx
      exact balancesInc_fields u amt m'.balances ih x hx

/-- C10: the balance read path prefers the cache whenever a document
exists for the user, and because deposit completion only increments
`available_balance`/`total_deposits` and nothing ever writes the
withdrawal fields, every cache-backed response reports
`total_withdrawals = 0`, `pending_withdrawals = 0` and
`net_available = available_balance`, regardless of the user's actual
withdrawals in the relational ledger. -/
theorem santa_C10_cache_read (m : Mongo) (hreach : CacheReach m) (uid : Nat)
    (b : BalanceDoc) (hfind : m.balances.find? (fun x => x.user_id == uid) = some b)
    (db : DB) :
    get_balance uid true m db
      = ⟨b.available_balance, b.total_deposits, 0, 0, b.available_balance⟩ := by
  have hb := cacheReach_balances hreach b (List.mem_of_find?_eq_some hfind)
  simp [get_balance, hfind, hb.1, hb.2]

/-- Witness for C10 at a concrete input: after one completed 100-unit
deposit reached the cache via the webhook path, the cache-backed balance
read reports zero withdrawals and `net_available = available_balance =
100` even though the relational ledger holds a completed 40-unit
withdrawal for the user. -/
theorem santa_C10_cache_read_witness :
    CacheReach (handle_webhook (fun _ b => b) "k" (some "body") "body"
        ⟨some "charge.completed", none, some "DEP_1", none, none, some "T1", none⟩
        true 5 ⟨[7], [⟨1, 7, 100, "USD", "DEP_1", none, "pending", 0, none⟩], [], []⟩
        ⟨[], [], []⟩).2.2
    ∧ ((handle_webhook (fun _ b => b) "k" (some "body") "body"
        ⟨some "charge.completed", none, some "DEP_1", none, none, some "T1", none⟩
        true 5 ⟨[7], [⟨1, 7, 100, "USD", "DEP_1", none, "pending", 0, none⟩], [], []⟩
        ⟨[], [], []⟩).2.2.balances.find? (fun x => x.user_id == 7)
        = some ⟨7, 100, 100, none, none⟩)
    ∧ get_balance 7 true (handle_webhook (fun _ b => b) "k" (some "body") "body"
        ⟨some "charge.completed", none, some "DEP_1", none, none, some "T1", none⟩
        true 5 ⟨[7], [⟨1, 7, 100, "USD", "DEP_1", none, "pending", 0, none⟩], [], []⟩
        ⟨[], [], []⟩).2.2
        ⟨[7], [], [⟨2, 7, 40, "USD", "044", "acct", "Ada", none, "completed", 0, some 1⟩], []⟩
      = ⟨100, 100, 0, 0, 100⟩ :=
  ⟨CacheReach.viaWebhook _ _ _ _ _ _ _ _ _ CacheReach.init,
   by decide,
   santa_C10_cache_read _ (CacheReach.viaWebhook _ _ _ _ _ _ _ _ _ CacheReach.init) 7
     ⟨7, 100, 100, none, none⟩ (by decide)
     ⟨[7], [], [⟨2, 7, 40, "USD", "044", "acct", "Ada", none, "completed", 0, some 1⟩], []⟩⟩

end Santa
